import Mathlib

/-!
# Verification of the ws-api-python client against its specification

This file gives a shallow embedding, in Lean 4, of the parts of the
`ws_api` Python package relevant to the verified properties:

* the decoded-JSON data model (Python values produced by `response.json()`),
  together with helpers mirroring Python semantics (`in`, `dict.get`,
  indexing, truthiness, `str.capitalize`, ...);
* `WSAPISession` (`ws_api/session.py`) with `to_json`/`from_json`;
* `WealthsimpleAPIBase.start_session`, `check_oauth_token`,
  `login_internal` and `do_graphql_query` (`ws_api/wealthsimple_api.py`),
  with network transport modelled as a pure oracle and every outgoing
  request logged, so "no network call is attempted" becomes a statement
  about the log;
* `WealthsimpleAPI.security_id_to_symbol` / `get_security_market_data`;
* `format_account_description` and `format_activity_description`
  (`ws_api/formatters.py`).

Exceptions are embedded as an inductive error type carried in `Except`.
The package's `exceptions.py` is not part of the provided sources; the
constructors and the class hierarchy used by `except WSApiException`
follow the spec's error taxonomy (spec §7) and the package's tests
(`LoginFailedException` is a `WSApiException`).
-/

/-- A decoded JSON value: the result of `response.json()` in Python and
the payload of GraphQL/OAuth responses.  Numbers are modelled as
integers; no verified claim involves fractional response values. -/
inductive Json where
  | null : Json
  | bool : Bool → Json
  | num : Int → Json
  | str : String → Json
  | arr : List Json → Json
  | obj : List (String × Json) → Json

namespace Json

/-- Equality test on JSON values (Python `==` on decoded JSON). -/
def beq : Json → Json → Bool
  | .null, .null => true
  | .bool a, .bool b => a = b
  | .num a, .num b => a = b
  | .str a, .str b => a = b
  | .arr a, .arr b => beqList a b
  | .obj a, .obj b => beqObj a b
  | _, _ => false
where
  beqList : List Json → List Json → Bool
    | [], [] => true
    | x :: xs, y :: ys => beq x y && beqList xs ys
    | _, _ => false
  beqObj : List (String × Json) → List (String × Json) → Bool
    | [], [] => true
    | (k, x) :: xs, (l, y) :: ys => k = l && beq x y && beqObj xs ys
    | _, _ => false

instance : BEq Json := ⟨beq⟩

@[simp]
theorem beq_str (a b : String) : (Json.str a == Json.str b) = (a == b) := rfl

end Json

/-- Python truthiness of a decoded JSON value (`if value:`). -/
def pyTruthy : Json → Bool
  | .null => false
  | .bool b => b
  | .num n => n ≠ 0
  | .str s => s ≠ ""
  | .arr xs => ¬ xs.isEmpty
  | .obj fs => ¬ fs.isEmpty

/-- Python truthiness of an optional string (`if s:` where `s` is
`str | None`): `None` and the empty string are falsy. -/
def optStrTruthy : Option String → Bool
  | none => false
  | some s => s ≠ ""

/-- Key lookup in a JSON object, `d[k]` / `k in d` on dicts.  Python
dict keys are unique; the association list is searched front to back. -/
def jsonGet (j : Json) (k : String) : Option Json :=
  match j with
  | .obj fs => fs.lookup k
  | _ => none

/-- `d.get(k, default)` on a JSON object. -/
def jsonGetD (j : Json) (k : String) (default : Json) : Json :=
  (jsonGet j k).getD default

/-- Whether `j` is a JSON object (Python `isinstance(j, dict)`). -/
def Json.isObj : Json → Bool
  | .obj _ => true
  | _ => false

/-- Whether `j` is a JSON array (Python `isinstance(j, list)`). -/
def Json.isArr : Json → Bool
  | .arr _ => true
  | _ => false

/-- Whether `needle` occurs at the start of `hay` (character lists). -/
def charsLeading : List Char → List Char → Bool
  | [], _ => true
  | _ :: _, [] => false
  | a :: as, b :: bs => a = b && charsLeading as bs

/-- Whether `needle` occurs anywhere in `hay` (character lists). -/
def charsContain (needle : List Char) : List Char → Bool
  | [] => needle.isEmpty
  | c :: cs => charsLeading needle (c :: cs) || charsContain needle cs

/-- Python substring test `needle in hay` on strings. -/
def pySubstr (hay needle : String) : Bool :=
  charsContain needle.data hay.data

/-- Splitting a character list on a separator character; the result
always has at least one (possibly empty) piece. -/
def splitChars (sep : Char) : List Char → List (List Char)
  | [] => [[]]
  | c :: cs =>
    let r := splitChars sep cs
    if c = sep then [] :: r
    else
      match r with
      | h :: t => (c :: h) :: t
      | [] => [[c]]

/-- Python `s.split(sep)` for a one-character separator, as used for the
dot-separated result path (`data_response_path.split(".")`). -/
def pySplit (s : String) (sep : Char) : List String :=
  (splitChars sep s.data).map String.mk

/-- Rendering of a decoded JSON value inside an f-string (`f"{value}"`).
`None` renders as `"None"`, booleans as `True`/`False`.  Containers are
rendered structurally; no verified claim interpolates a container. -/
def pyStrOfJson : Json → String
  | .null => "None"
  | .bool b => if b then "True" else "False"
  | .num n => toString n
  | .str s => s
  | .arr _ => "[...]"
  | .obj _ => "{...}"

/-- Rendering of an optional string inside an f-string: `None` renders
as `"None"`. -/
def pyShowOpt : Option String → String
  | none => "None"
  | some s => s

/-- Python `str.capitalize()`: first character upper-cased, the rest
lower-cased (all strings involved are ASCII). -/
def pyCapitalize (s : String) : String :=
  match s.data with
  | [] => ""
  | c :: cs => String.mk (c.toUpper :: cs.map Char.toLower)

/-- Python `str.rstrip()` restricted to the space character (the only
trailing whitespace produced by the formatter). -/
def pyRstrip (s : String) : String :=
  String.mk (s.data.reverse.dropWhile (· = ' ')).reverse

/-- The error taxonomy of the package (spec §7).  `exceptions.py` is not
among the provided sources; constructors carry exactly what the code
attaches (`WSApiException(message, response)` per the tests).  `pyError`
stands for untyped Python runtime errors (`KeyError`, `TypeError`,
`AttributeError`) that the library itself never raises or catches, and
`fuelExhausted` is an artifact of the bounded recursion depth used for
the (unboundedly recursive) pagination. -/
inductive Err where
  | wsApi : String → Option Json → Err
  | unexpected : String → Err
  | manualLoginRequired : String → Err
  | otpRequired : String → Err
  | loginFailed : String → Json → Err
  | curl : String → Err
  | pyError : String → Err
  | fuelExhausted : Err

/-- Modelled from the spec: which errors an `except WSApiException`
clause catches.  `exceptions.py` is missing from the sources; per the
tests `LoginFailedException` subclasses `WSApiException`, and per the
spec's taxonomy (§7) the transport, bootstrap and terminal-login errors
are distinct kinds, which the probe in `check_oauth_token` can in any
case never raise. -/
def isWSApiException : Err → Bool
  | .wsApi _ _ => true
  | .loginFailed _ _ => true
  | _ => false

/-- The `response` attribute of a caught `WSApiException`. -/
def errResponse : Err → Option Json
  | .wsApi _ r => r
  | .loginFailed _ r => some r
  | _ => none

/-- `ws_api/session.py`: the `WSAPISession` dataclass (extending
`OAuthSession`).  The five identifier/token fields are declared
`str | None` and `token_info` is declared `dict | None`; the embedding
follows those declarations. -/
structure WSAPISession where
  client_id : Option String := none
  access_token : Option String := none
  refresh_token : Option String := none
  session_id : Option String := none
  wssdi : Option String := none
  token_info : Option (List (String × Json)) := none

/-- `WSAPISession.to_json`, at the level of the decoded JSON value:
`dataclasses.asdict` produces a flat mapping of the six fields (the
textual encoding itself is Python's stdlib `json.dumps`, an external
collaborator outside this repository). -/
def WSAPISession.to_json (s : WSAPISession) : Json :=
  let f : Option String → Json := fun v => match v with
    | none => .null
    | some x => .str x
  .obj [("client_id", f s.client_id),
        ("access_token", f s.access_token),
        ("refresh_token", f s.refresh_token),
        ("session_id", f s.session_id),
        ("wssdi", f s.wssdi),
        ("token_info", match s.token_info with
          | none => .null
          | some d => .obj d)]

/-- `WSAPISession.from_json`, at the level of the decoded JSON value:
`cls(**json.loads(json_str))` passes every decoded key as a keyword
argument.  Missing keys take the dataclass default `None`; a key that is
not a dataclass field raises `TypeError`; a value outside the declared
field type (`str | None`, `dict | None`) is outside the typed embedding
and reported as a Python-level error. -/
def WSAPISession.from_json (j : Json) : Except Err WSAPISession :=
  match j with
  | .obj fs => do
    if (fs.map Prod.fst).any (fun k =>
        !(k == "client_id" || k == "access_token" || k == "refresh_token" ||
          k == "session_id" || k == "wssdi" || k == "token_info")) then
      throw (.pyError "TypeError: unexpected keyword argument")
    let getStr : String → Except Err (Option String) := fun k =>
      match (fs.lookup k).getD .null with
      | .null => pure none
      | .str s => pure (some s)
      | _ => throw (.pyError "field value outside declared type")
    let client_id ← getStr "client_id"
    let access_token ← getStr "access_token"
    let refresh_token ← getStr "refresh_token"
    let session_id ← getStr "session_id"
    let wssdi ← getStr "wssdi"
    let token_info ← match (fs.lookup "token_info").getD .null with
      | .null => pure none
      | .obj d => pure (some d)
      | _ => throw (.pyError "field value outside declared type")
    pure { client_id, access_token, refresh_token, session_id, wssdi,
           token_info }
  | _ => throw (.pyError "TypeError: argument after ** must be a mapping")

/-- `WealthsimpleAPIBase.start_session` on the restored-session path
(`if sess:`): the five identifying fields of the supplied session are
copied verbatim onto the live session and the method returns. -/
def start_session (current sess : WSAPISession) : WSAPISession :=
  { current with
    access_token := sess.access_token
    wssdi := sess.wssdi
    session_id := sess.session_id
    client_id := sess.client_id
    refresh_token := sess.refresh_token }

/-- `WealthsimpleAPIBase.__init__(sess)` with a session supplied:
`self.session = WSAPISession()` followed by `start_session(sess)`. -/
def init_with_session (sess : WSAPISession) : WSAPISession :=
  start_session {} sess

/-- C7: round-tripping a `WSAPISession` through `to_json` then
`from_json` restores every one of the six fields: the serialized form is
lossless. -/
theorem session_to_json_from_json_roundtrip (s : WSAPISession) :
    WSAPISession.from_json s.to_json = .ok s := by
  obtain ⟨c, a, r, i, w, t⟩ := s
  cases c <;> cases a <;> cases r <;> cases i <;> cases w <;> cases t <;> rfl

/-- C9: restoring a session through `start_session` copies exactly the
five fields `access_token`, `wssdi`, `session_id`, `client_id` and
`refresh_token` onto the freshly constructed live session; `token_info`
is not copied and remains `None`, even when the supplied session has a
populated `token_info`; and in general `start_session` leaves the live
session's `token_info` untouched. -/
theorem start_session_copies_five_fields :
    (∀ sess : WSAPISession,
      init_with_session sess =
        { client_id := sess.client_id
          access_token := sess.access_token
          refresh_token := sess.refresh_token
          session_id := sess.session_id
          wssdi := sess.wssdi
          token_info := none }) ∧
    (∀ current sess : WSAPISession,
      (start_session current sess).token_info = current.token_info) := by
  constructor
  · intro sess
    rfl
  · intro current sess
    rfl

/-- The `vars0` dict of a GraphQL request (and the form fields of an
OAuth request).  Python dict keys are unique and insertion-ordered. -/
abbrev Vars : Type := List (String × Json)

/-- Python dict assignment `d[k] = v`: an existing key keeps its
position, a new key is appended. -/
def setKey (vars : Vars) (k : String) (v : Json) : Vars :=
  if (vars.lookup k).isSome then
    vars.map (fun p => if p.1 = k then (k, v) else p)
  else
    vars ++ [(k, v)]

/-- One outgoing HTTP request: a GraphQL POST (operation name and
vars0) or an OAuth-token POST (form fields and extra headers). -/
inductive Call where
  | graphql : String → Vars → Call
  | oauth : Vars → List (String × String) → Call

/-- The network transport, modelled as a pure oracle from request to
decoded response body.  The query-text catalog (`graphql_queries.py`,
a static resource not among the provided sources) is elided: responses
are keyed by operation name. -/
structure NetWorld where
  graphql : String → Vars → Json
  oauth : Vars → List (String × String) → Json

/-- Python `k in v` for a string key: for dicts a key test, for lists a
membership test, for strings a substring test; for any other value a
`TypeError`. -/
def pyContains (v : Json) (k : String) : Except Err Bool :=
  match v with
  | .obj fs => .ok ((fs.lookup k).isSome)
  | .arr xs => .ok (xs.contains (.str k))
  | .str s => .ok (pySubstr s k)
  | _ => .error (.pyError "TypeError: argument is not iterable")

/-- Python `v[k]` for a string key: defined for dicts (`KeyError` when
the key is absent), a `TypeError` otherwise. -/
def pyIndex (v : Json) (k : String) : Except Err Json :=
  match v with
  | .obj fs =>
    match fs.lookup k with
    | some x => .ok x
    | none => .error (.pyError "KeyError")
  | _ => .error (.pyError "TypeError: indices must be integers")

/-- The end-cursor assignment performed at one step of the result-path
walk of `do_graphql_query`:
`isinstance(data, dict) and "pageInfo" in data and
isinstance(data["pageInfo"], dict) and data["pageInfo"].get("hasNextPage")
and "endCursor" in data["pageInfo"]`.
Returns `some v` when the assignment `end_cursor = ...` fires (the
assigned value may itself be `null`), `none` otherwise. -/
def capturedCursor (data : Json) : Option Json :=
  match jsonGet data "pageInfo" with
  | some pi =>
    if pi.isObj ∧ pyTruthy (jsonGetD pi "hasNextPage" .null) ∧
        (jsonGet pi "endCursor").isSome then
      jsonGet pi "endCursor"
    else none
  | none => none

/-- The result-path walk of `do_graphql_query`: follow each dot-separated
segment through the response, failing with the query's `WSApiException`
when a segment is missing, and remembering the most recently assigned
end cursor. -/
def walkPath (queryName : String) (responseData : Json) :
    Json → Option Json → List String → Except Err (Json × Option Json)
  | data, cursor, [] => .ok (data, cursor)
  | data, cursor, key :: rest => do
    let mem ← pyContains data key
    if ¬ mem then
      throw (.wsApi ("GraphQL query failed: " ++ queryName) (some responseData))
    let data ← pyIndex data key
    let cursor := match capturedCursor data with
      | some v => some v
      | none => cursor
    walkPath queryName responseData data cursor rest

/-- The `edges` unwrapping of `do_graphql_query`:
`data = [edge["node"] for edge in data]`.  Iterating a dict yields its
keys and iterating a string yields its characters, upon which the
`["node"]` indexing raises `TypeError`. -/
def unwrapEdges : Json → Except Err Json
  | .arr xs => do
    let nodes ← xs.mapM (fun e => pyIndex e "node")
    pure (.arr nodes)
  | .obj fs =>
    if fs.isEmpty then pure (.arr [])
    else .error (.pyError "TypeError: string indices must be integers")
  | .str s =>
    if s = "" then pure (.arr [])
    else .error (.pyError "TypeError: string indices must be integers")
  | _ => .error (.pyError "TypeError: argument is not iterable")

/-- `data = list(filter(filter_fn, data))`: filtering a list keeps
matching elements; filtering a dict iterates its keys; filtering a
string iterates its characters; anything else is not iterable. -/
def applyFilter (filterFn : Option (Json → Bool)) (data : Json) :
    Except Err Json :=
  match filterFn with
  | none => pure data
  | some f =>
    match data with
    | .arr xs => pure (.arr (xs.filter f))
    | .obj fs => pure (.arr ((fs.map (fun p => Json.str p.1)).filter f))
    | .str s =>
      pure (.arr ((s.data.map (fun c => Json.str (String.mk [c]))).filter f))
    | _ => .error (.pyError "TypeError: argument is not iterable")

/-- The single-page core of `WealthsimpleAPIBase.do_graphql_query`
before the filtering step: send the request, require a top-level `data`
field, walk the result path (capturing the last end cursor), validate
the shape against `expect_type` and unwrap `edges`.  Returns the page's
extracted value together with the captured cursor. -/
def queryPageRaw (w : NetWorld) (queryName : String) (vars0 : Vars)
    (dataResponsePath expectType : String) :
    Except Err (Json × Option Json) := do
  let responseData := w.graphql queryName vars0
  let hasData ← pyContains responseData "data"
  if ¬ hasData then
    throw (.wsApi ("GraphQL query failed: " ++ queryName) (some responseData))
  let data0 ← pyIndex responseData "data"
  let segs := pySplit dataResponsePath '.'
  let (data, endCursor) ← walkPath queryName responseData data0 none segs
  if (expectType = "array" ∧ ¬ data.isArr) ∨
      (expectType = "object" ∧ ¬ data.isObj) then
    throw (.wsApi ("GraphQL query failed: " ++ queryName) (some responseData))
  let lastKey := segs.getLastD ""
  let data ← if lastKey = "edges" then unwrapEdges data else pure data
  pure (data, endCursor)

/-- The single-page step of `do_graphql_query` including the last,
per-page filtering step (`data = list(filter(filter_fn, data))`). -/
def queryPage (w : NetWorld) (queryName : String) (vars0 : Vars)
    (dataResponsePath expectType : String)
    (filterFn : Option (Json → Bool)) : Except Err (Json × Option Json) := do
  let (data, endCursor) ←
    queryPageRaw w queryName vars0 dataResponsePath expectType
  let data ← applyFilter filterFn data
  pure (data, endCursor)

/-- `WealthsimpleAPIBase.do_graphql_query`.  The recursion on a captured
end cursor is unbounded in the source; `fuel` bounds it in the
embedding and is consumed only at the recursive call.  The second
component logs every outgoing request, in order. -/
def do_graphql_query (w : NetWorld) (fuel : Nat) (queryName : String)
    (vars0 : Vars) (dataResponsePath expectType : String)
    (filterFn : Option (Json → Bool)) (loadAllPages : Bool) :
    Except Err Json × List Call :=
  let selfCall := Call.graphql queryName vars0
  match queryPage w queryName vars0 dataResponsePath expectType filterFn with
  | .error e => (.error e, [selfCall])
  | .ok (data, endCursor) =>
    if loadAllPages then
      if expectType ≠ "array" then
        (.error (.unexpected
          "Can't load all pages for GraphQL queries that do not return arrays"),
         [selfCall])
      else
        match endCursor with
        | some c =>
          if pyTruthy c then
            match fuel with
            | 0 => (.error .fuelExhausted, [selfCall])
            | f + 1 =>
              let r := do_graphql_query w f queryName
                (setKey vars0 "cursor" c) dataResponsePath expectType
                filterFn true
              match r.1 with
              | .error e => (.error e, selfCall :: r.2)
              | .ok more =>
                match data, more with
                | .arr xs, .arr ys => (.ok (.arr (xs ++ ys)), selfCall :: r.2)
                | _, _ => (.ok data, selfCall :: r.2)
          else (.ok data, [selfCall])
        | none => (.ok data, [selfCall])
    else (.ok data, [selfCall])

/-- C4: calling `do_graphql_query` with `expect_type = "object"` and
`load_all_pages = True` always produces an error, and the only request
ever sent is the initial one: no network call for a paginated
continuation (no recursive page fetch) ever occurs, whatever the remote
responds. -/
theorem do_graphql_query_object_load_all_errors
    (w : NetWorld) (fuel : Nat) (qn : String) (vars0 : Vars) (path : String)
    (filt : Option (Json → Bool)) :
    (∃ e, (do_graphql_query w fuel qn vars0 path "object" filt true).1 =
      .error e) ∧
    (do_graphql_query w fuel qn vars0 path "object" filt true).2 =
      [Call.graphql qn vars0] := by
  unfold do_graphql_query
  cases h : queryPage w qn vars0 path "object" filt with
  | error e => exact ⟨⟨e, rfl⟩, rfl⟩
  | ok p => simp

/-- C2: pagination of `do_graphql_query` with `load_all_pages = True`.
First conjunct: whenever the page walk captures a (truthy) end cursor,
the next page is fetched by a recursive call whose variables carry that
cursor as `variables["cursor"]` and whose other arguments are unchanged,
and its result is appended after the current page's items, so the pages
are concatenated in cursor order.  Second conjunct: a supplied filter is
applied to each page's own items, before concatenation — never to the
already-concatenated whole. -/
theorem do_graphql_query_paginates :
    (∀ (w : NetWorld) (f : Nat) (qn : String) (vars0 : Vars) (path : String)
        (filt : Option (Json → Bool)) (xs : List Json) (c : Json),
      queryPage w qn vars0 path "array" filt = .ok (.arr xs, some c) →
      pyTruthy c = true →
      do_graphql_query w (f + 1) qn vars0 path "array" filt true =
        (match (do_graphql_query w f qn (setKey vars0 "cursor" c) path "array"
            filt true).1 with
          | .ok (.arr ys) => .ok (.arr (xs ++ ys))
          | .ok _ => .ok (.arr xs)
          | .error e => .error e,
         Call.graphql qn vars0 ::
           (do_graphql_query w f qn (setKey vars0 "cursor" c) path "array"
             filt true).2)) ∧
    (∀ (w : NetWorld) (qn : String) (vars0 : Vars) (path : String)
        (g : Json → Bool) (xs : List Json) (cur : Option Json),
      queryPageRaw w qn vars0 path "array" = .ok (.arr xs, cur) →
      queryPage w qn vars0 path "array" (some g) =
        .ok (.arr (xs.filter g), cur)) := by
  constructor
  · intro w f qn vars0 path filt xs c hpage hc
    conv_lhs => rw [do_graphql_query.eq_def]
    rw [hpage]
    simp [hc]
    cases hr : (do_graphql_query w f qn (setKey vars0 "cursor" c) path "array"
        filt true).1 with
    | error e => simp
    | ok d => cases d <;> simp
  · intro w qn vars0 path g xs cur hraw
    unfold queryPage
    rw [hraw]
    rfl

/-- A two-page network for exercising the pagination claim: the first
page carries `hasNextPage = true` with end cursor `"CUR1"`; the page
requested with `variables["cursor"] = "CUR1"` is final. -/
def c2Net : NetWorld where
  graphql := fun _ vs =>
    if (vs.lookup "cursor").isSome then
      .obj [("data", .obj [("items", .obj
        [("edges", .arr [.obj [("node", .str "b")]]),
         ("pageInfo", .obj [("hasNextPage", .bool false)])])])]
    else
      .obj [("data", .obj [("items", .obj
        [("edges", .arr [.obj [("node", .str "a")]]),
         ("pageInfo", .obj [("hasNextPage", .bool true),
                            ("endCursor", .str "CUR1")])])])]
  oauth := fun _ _ => .null

/-- Witness for C2 on `c2Net`: the hypotheses hold on the first page,
and by the theorem the two pages are fetched in cursor order and
concatenated. -/
theorem do_graphql_query_paginates_witness :
    queryPage c2Net "Q" [] "items.edges" "array" none =
      .ok (.arr [.str "a"], some (.str "CUR1")) ∧
    do_graphql_query c2Net 1 "Q" [] "items.edges" "array" none true =
      (.ok (.arr [.str "a", .str "b"]),
       [Call.graphql "Q" [], Call.graphql "Q" [("cursor", .str "CUR1")]]) := by
  refine ⟨rfl, ?_⟩
  rw [do_graphql_query_paginates.1 c2Net 0 "Q" [] "items.edges" none
    [.str "a"] (.str "CUR1") rfl rfl]
  rfl

/-- `WealthsimpleAPIBase.search_security("XEQT")`: the cheap probe query
`check_oauth_token` uses to test the access token.  `load_all_pages` is
false, so the recursion depth argument is irrelevant. -/
def search_security (w : NetWorld) : Except Err Json × List Call :=
  do_graphql_query w 0 "FetchSecuritySearchResult" [("query", .str "XEQT")]
    "securitySearch.results" "array" none false

/-- The outcome of the probe's `try/except WSApiException` block in
`check_oauth_token`: `valid` means the probe succeeded and the method
returns; `expired` means the caught exception carried a response whose
`message` is exactly `"Not Authorized."`, so control falls through to
the refresh; `failed e` means the error `e` propagates (it is not a
`WSApiException`, its response is `None`, or its message differs).  A
caught exception whose response is not a mapping makes the handler
itself fail on `.get` with `AttributeError`. -/
def probeOutcome (res : Except Err Json) : Except Err Unit ⊕ Unit :=
  match res with
  | .ok _ => .inl (.ok ())
  | .error e =>
    if isWSApiException e then
      match errResponse e with
      | none => .inl (.error e)
      | some r =>
        match r with
        | .obj _ =>
          if jsonGet r "message" == some (.str "Not Authorized.") then .inr ()
          else .inl (.error e)
        | _ => .inl (.error (.pyError "AttributeError: no attribute get"))
    else .inl (.error e)

/-- The form fields of the refresh-grant request issued by
`check_oauth_token`. -/
def refreshVars (s : WSAPISession) : Vars :=
  [("grant_type", .str "refresh_token"),
   ("refresh_token", match s.refresh_token with
     | none => .null
     | some t => .str t),
   ("client_id", match s.client_id with
     | none => .null
     | some t => .str t)]

/-- The extra headers of the refresh-grant request issued by
`check_oauth_token`. -/
def refreshHeaders : List (String × String) :=
  [("x-wealthsimple-client", "@wealthsimple/wealthsimple"),
   ("x-ws-profile", "invest")]

/-- `WealthsimpleAPIBase.check_oauth_token`: when an access token is
present, probe with `search_security("XEQT")`; a successful probe
returns; a `WSApiException` whose response message is exactly
`"Not Authorized."` falls through to the refresh; any other probe
failure propagates.  When no access token is present, or expiry was
detected: with a refresh token, POST a refresh grant; a response missing
either token raises `ManualLoginRequired` with the provider's `error`
field (or a generic reason); otherwise both new tokens are stored on the
session.  Without a refresh token, `ManualLoginRequired` is raised with
no further network call.  The session dataclass declares the token
fields `str | None`, so a non-string token in the provider response is
outside the typed embedding.  The optional persistence callback has no
observable effect on session or network and is not modelled.  The
second component logs every outgoing request. -/
def check_oauth_token (w : NetWorld) (s : WSAPISession) :
    Except Err WSAPISession × List Call :=
  let probe : (Except Err Unit ⊕ Unit) × List Call :=
    if optStrTruthy s.access_token then
      let r := search_security w
      (probeOutcome r.1, r.2)
    else (.inr (), [])
  match probe with
  | (.inl (.ok ()), log) => (.ok s, log)
  | (.inl (.error e), log) => (.error e, log)
  | (.inr (), log) =>
    if optStrTruthy s.refresh_token then
      let vars0 := refreshVars s
      let response := w.oauth vars0 refreshHeaders
      let log := log ++ [Call.oauth vars0 refreshHeaders]
      let missing : Except Err Bool := do
        let a ← pyContains response "access_token"
        if ¬ a then pure true
        else do
          let b ← pyContains response "refresh_token"
          pure (¬ b)
      match missing with
      | .error e => (.error e, log)
      | .ok true =>
        match response with
        | .obj _ =>
          (.error (.manualLoginRequired
            ("OAuth token invalid and cannot be refreshed: " ++
              pyStrOfJson (jsonGetD response "error"
                (.str "Invalid response from API")))), log)
        | _ => (.error (.pyError "AttributeError: no attribute get"), log)
      | .ok false =>
        match pyIndex response "access_token",
              pyIndex response "refresh_token" with
        | .ok (.str a), .ok (.str r) =>
          (.ok { s with access_token := some a, refresh_token := some r }, log)
        | .ok _, .ok _ =>
          (.error (.pyError "token value outside declared type"), log)
        | .error e, _ => (.error e, log)
        | .ok _, .error e => (.error e, log)
    else
      (.error (.manualLoginRequired
        "OAuth token invalid and cannot be refreshed."), log)

/-- The form fields of the password-grant request issued by
`login_internal` (`otp_claim` is always `None`; the OTP travels in a
header). -/
def loginVars (s : WSAPISession) (username password scope : String) : Vars :=
  [("grant_type", .str "password"),
   ("username", .str username),
   ("password", .str password),
   ("skip_provision", .str "true"),
   ("scope", .str scope),
   ("client_id", match s.client_id with
     | none => .null
     | some c => .str c),
   ("otp_claim", .null)]

/-- The headers of the password-grant request: the OTP answer, when
truthy, is attached as `x-wealthsimple-otp: {answer};remember=true`. -/
def loginHeaders (otpAnswer : Option String) : List (String × String) :=
  let base := [("x-wealthsimple-client", "@wealthsimple/wealthsimple"),
               ("x-ws-profile", "undefined")]
  if optStrTruthy otpAnswer then
    base ++ [("x-wealthsimple-otp", pyShowOpt otpAnswer ++ ";remember=true")]
  else base

/-- `WealthsimpleAPIBase.login_internal`: POST a password grant; if the
response carries `error == "invalid_grant"` and no OTP answer was
supplied, raise `OTPRequiredException`; any other response carrying
`error` raises `LoginFailedException` with the raw response; otherwise
the returned tokens are stored on the session.  The optional persistence
callback has no observable effect on session or network and is not
modelled. -/
def login_internal (w : NetWorld) (s : WSAPISession)
    (username password : String) (otpAnswer : Option String)
    (scope : String) : Except Err WSAPISession × List Call :=
  let vars0 := loginVars s username password scope
  let headers := loginHeaders otpAnswer
  let response := w.oauth vars0 headers
  let log := [Call.oauth vars0 headers]
  match pyContains response "error" with
  | .error e => (.error e, log)
  | .ok hasErr =>
    if hasErr then
      match pyIndex response "error" with
      | .error e => (.error e, log)
      | .ok errVal =>
        if errVal == .str "invalid_grant" ∧ otpAnswer = none then
          (.error (.otpRequired "2FA code required"), log)
        else (.error (.loginFailed "Login failed" response), log)
    else
      match pyIndex response "access_token",
            pyIndex response "refresh_token" with
      | .ok (.str a), .ok (.str r) =>
        (.ok { s with access_token := some a, refresh_token := some r }, log)
      | .ok _, .ok _ =>
        (.error (.pyError "token value outside declared type"), log)
      | .error e, _ => (.error e, log)
      | .ok _, .error e => (.error e, log)

/-- C3: when the provider answers the password grant with error code
`"invalid_grant"`, `login_internal` raises `OTPRequiredException` if no
OTP answer was supplied, and `LoginFailedException` carrying the raw
response payload if an OTP answer was supplied. -/
theorem login_internal_invalid_grant :
    (∀ (w : NetWorld) (s : WSAPISession) (u p sc : String)
        (fs : List (String × Json)),
      w.oauth (loginVars s u p sc) (loginHeaders none) = .obj fs →
      fs.lookup "error" = some (.str "invalid_grant") →
      login_internal w s u p none sc =
        (.error (.otpRequired "2FA code required"),
         [Call.oauth (loginVars s u p sc) (loginHeaders none)])) ∧
    (∀ (w : NetWorld) (s : WSAPISession) (u p sc o : String)
        (fs : List (String × Json)),
      w.oauth (loginVars s u p sc) (loginHeaders (some o)) = .obj fs →
      fs.lookup "error" = some (.str "invalid_grant") →
      login_internal w s u p (some o) sc =
        (.error (.loginFailed "Login failed" (.obj fs)),
         [Call.oauth (loginVars s u p sc) (loginHeaders (some o))])) := by
  constructor
  · intro w s u p sc fs hresp herr
    unfold login_internal
    simp [hresp, pyContains, pyIndex, herr]
  · intro w s u p sc o fs hresp herr
    unfold login_internal
    simp [hresp, pyContains, pyIndex, herr]

/-- A provider that rejects every password grant with `invalid_grant`. -/
def c3Net : NetWorld where
  graphql := fun _ _ => .null
  oauth := fun _ _ => .obj [("error", .str "invalid_grant")]

/-- Witness for C3: on `c3Net`, login without an OTP raises the OTP
requirement, and login with an OTP raises the login failure carrying the
raw payload. -/
theorem login_internal_invalid_grant_witness :
    login_internal c3Net {} "u" "p" none "sc" =
      (.error (.otpRequired "2FA code required"),
       [Call.oauth (loginVars {} "u" "p" "sc") (loginHeaders none)]) ∧
    login_internal c3Net {} "u" "p" (some "123456") "sc" =
      (.error (.loginFailed "Login failed"
         (.obj [("error", .str "invalid_grant")])),
       [Call.oauth (loginVars {} "u" "p" "sc")
         (loginHeaders (some "123456"))]) :=
  ⟨login_internal_invalid_grant.1 c3Net {} "u" "p" "sc"
     [("error", .str "invalid_grant")] rfl rfl,
   login_internal_invalid_grant.2 c3Net {} "u" "p" "sc" "123456"
     [("error", .str "invalid_grant")] rfl rfl⟩

/-- C1: the probe/refresh behaviour of `check_oauth_token`.
First conjunct: with a (truthy) access token, a probe failing with a
`WSApiException` whose response message is exactly `"Not Authorized."`,
a (truthy) refresh token, and a refresh response carrying both tokens,
the new access/refresh pair is stored on the session and no error is
raised.  Second conjunct: when the probe fails in any way that is not
the recognized expiry signal, that error propagates unchanged and the
only request sent is the probe itself — no refresh call is made.  Third
conjunct: when no access token is present, or expiry was detected, but
no (truthy) refresh token exists, `ManualLoginRequired` is raised and no
OAuth network call is made at all. -/
theorem check_oauth_token_probe_refresh :
    (∀ (w : NetWorld) (s : WSAPISession) (e : Err)
        (rfs fs : List (String × Json)) (rt newA newR : String),
      optStrTruthy s.access_token = true →
      (search_security w).1 = .error e →
      isWSApiException e = true →
      errResponse e = some (.obj rfs) →
      ((rfs.lookup "message" : Option Json) ==
        some (.str "Not Authorized.")) = true →
      s.refresh_token = some rt → rt ≠ "" →
      w.oauth (refreshVars s) refreshHeaders = .obj fs →
      fs.lookup "access_token" = some (.str newA) →
      fs.lookup "refresh_token" = some (.str newR) →
      check_oauth_token w s =
        (.ok { s with access_token := some newA, refresh_token := some newR },
         (search_security w).2 ++ [Call.oauth (refreshVars s) refreshHeaders])) ∧
    (∀ (w : NetWorld) (s : WSAPISession) (e : Err),
      optStrTruthy s.access_token = true →
      (search_security w).1 = .error e →
      probeOutcome (.error e) = .inl (.error e) →
      check_oauth_token w s = (.error e,
        [Call.graphql "FetchSecuritySearchResult" [("query", .str "XEQT")]])) ∧
    (∀ (w : NetWorld) (s : WSAPISession),
      (optStrTruthy s.access_token = false ∨
        probeOutcome (search_security w).1 = .inr ()) →
      optStrTruthy s.refresh_token = false →
      (check_oauth_token w s).1 =
        .error (.manualLoginRequired
          "OAuth token invalid and cannot be refreshed.") ∧
      ∀ (v : Vars) (h : List (String × String)),
        Call.oauth v h ∉ (check_oauth_token w s).2) := by
  have hlog : ∀ w : NetWorld, (search_security w).2 =
      [Call.graphql "FetchSecuritySearchResult" [("query", .str "XEQT")]] := by
    intro w
    unfold search_security do_graphql_query
    cases hq : queryPage w "FetchSecuritySearchResult"
        [("query", .str "XEQT")] "securitySearch.results" "array" none <;>
      simp [hq]
  refine ⟨?_, ?_, ?_⟩
  · intro w s e rfs fs rt newA newR hat hprobe hws hresp hmsg hrt hrtne
      hoauth ha hr
    have hrtt : optStrTruthy s.refresh_token = true := by
      rw [hrt]; simpa [optStrTruthy] using hrtne
    unfold check_oauth_token
    simp only [hat, if_true]
    rw [hprobe]
    unfold probeOutcome
    simp only [hws, if_true, hresp, jsonGet, hmsg]
    simp [hrtt, hoauth, pyContains, pyIndex, jsonGet, hmsg, ha, hr,
      Bind.bind, Except.bind, Pure.pure, Except.pure]
  · intro w s e hat hprobe houtcome
    unfold check_oauth_token
    simp only [hat, if_true]
    rw [hprobe, houtcome]
    simp [hlog w]
  · intro w s hexp hrt
    unfold check_oauth_token
    rcases hexp with hat | hout
    · simp [hat, hrt]
    · cases hat : optStrTruthy s.access_token with
      | false => simp [hat, hrt]
      | true =>
        simp only [hat, if_true]
        rw [hout]
        simp [hrt, hlog w]

/-- A provider for exercising C1: every GraphQL response lacks `data`
and carries `message: "Not Authorized."` (the expired-token probe
failure), and the OAuth endpoint grants a fresh token pair. -/
def c1Net : NetWorld where
  graphql := fun _ _ => .obj [("message", .str "Not Authorized.")]
  oauth := fun _ _ => .obj [("access_token", .str "NEWA"),
                            ("refresh_token", .str "NEWR")]

/-- A restored session with an (expired) access token and a refresh
token. -/
def c1Session : WSAPISession :=
  { client_id := some "CID", access_token := some "OLD",
    refresh_token := some "RT", session_id := some "SID",
    wssdi := some "DEV" }

/-- Witness for C1 on `c1Net`: the probe fails with the exact
`"Not Authorized."` message, and `check_oauth_token` stores the
refreshed token pair without raising, after exactly one probe request
and one refresh request. -/
theorem check_oauth_token_probe_refresh_witness :
    check_oauth_token c1Net c1Session =
      (.ok { c1Session with access_token := some "NEWA",
                            refresh_token := some "NEWR" },
       [Call.graphql "FetchSecuritySearchResult" [("query", .str "XEQT")],
        Call.oauth (refreshVars c1Session) refreshHeaders]) := by
  have h := check_oauth_token_probe_refresh.1 c1Net c1Session
      (.wsApi "GraphQL query failed: FetchSecuritySearchResult"
        (some (.obj [("message", .str "Not Authorized.")])))
      [("message", .str "Not Authorized.")]
      [("access_token", .str "NEWA"), ("refresh_token", .str "NEWR")]
      "RT" "NEWA" "NEWR" rfl rfl rfl rfl rfl rfl (by decide) rfl rfl rfl
  rw [h]
  rfl

/-- The security-market-data cache hooks of `WealthsimpleAPI`: both are
`None` after construction and only `set_security_market_data_cache`
installs them. -/
structure CacheHooks where
  getter : Option (String → Json) := none
  setter : Option (String → Json → Json) := none

/-- `WealthsimpleAPI.set_security_market_data_cache`: installs the
getter/setter pair. -/
def set_security_market_data_cache (c : CacheHooks) (g : String → Json)
    (st : String → Json → Json) : CacheHooks :=
  { c with getter := some g, setter := some st }

/-- `WealthsimpleAPI.get_security_market_data`: caching is disabled
unless both hooks are installed; a truthy cached value is returned
without any network call; otherwise the market data is fetched by a
GraphQL query and, when caching, passed through the setter (whose
return value is what the method returns). -/
def get_security_market_data (w : NetWorld) (c : CacheHooks)
    (securityId : String) (useCache0 : Bool) : Except Err Json × List Call :=
  let useCache := if c.getter.isNone || c.setter.isNone then false
    else useCache0
  let cachedValue : Json := match c.getter with
    | some g => if useCache then g securityId else .null
    | none => .null
  if useCache ∧ pyTruthy cachedValue then (.ok cachedValue, [])
  else
    let r := do_graphql_query w 0 "FetchSecurityMarketData"
      [("id", .str securityId)] "security" "object" none false
    match r.1 with
    | .error e => (.error e, r.2)
    | .ok value =>
      if useCache then
        match c.setter with
        | some st => (.ok (st securityId value), r.2)
        | none => (.ok value, r.2)
      else (.ok value, r.2)

/-- `WealthsimpleAPI.security_id_to_symbol`: the symbol defaults to the
bracketed placeholder `[{security_id}]`; only when the cache getter is
installed is a market-data lookup attempted, a `WSApiException` from it
being absorbed (falling back to the placeholder); a truthy `stock`
entry yields `{primaryExchange}:{symbol}`. -/
def security_id_to_symbol (w : NetWorld) (c : CacheHooks)
    (securityId : String) : Except Err String × List Call :=
  let securitySymbol := "[" ++ securityId ++ "]"
  match c.getter with
  | none => (.ok securitySymbol, [])
  | some _ =>
    let r := get_security_market_data w c securityId true
    match r.1 with
    | .error e =>
      if isWSApiException e then (.ok securitySymbol, r.2)
      else (.error e, r.2)
    | .ok marketData =>
      if marketData.isObj ∧ pyTruthy (jsonGetD marketData "stock" .null) then
        let stock := jsonGetD marketData "stock" .null
        match pyIndex stock "primaryExchange", pyIndex stock "symbol" with
        | .ok ex, .ok sym =>
          (.ok (pyStrOfJson ex ++ ":" ++ pyStrOfJson sym), r.2)
        | .error e, _ => (.error e, r.2)
        | .ok _, .error e => (.error e, r.2)
      else (.ok securitySymbol, r.2)

/-- C8: without an installed security-market-data cache getter,
`security_id_to_symbol` performs no lookup (no network request at all)
and always returns the bracketed placeholder `[{security_id}]`; a
result other than the placeholder is only ever produced when the getter
is installed — and the only installation path,
`set_security_market_data_cache`, installs the getter and setter
together. -/
theorem security_id_to_symbol_requires_cache :
    (∀ (w : NetWorld) (c : CacheHooks) (id_ : String),
      c.getter = none →
      security_id_to_symbol w c id_ = (.ok ("[" ++ id_ ++ "]"), [])) ∧
    (∀ (w : NetWorld) (c : CacheHooks) (id_ res : String)
        (log : List Call),
      security_id_to_symbol w c id_ = (.ok res, log) →
      res ≠ "[" ++ id_ ++ "]" →
      c.getter ≠ none) ∧
    (∀ (c : CacheHooks) (g : String → Json) (st : String → Json → Json),
      (set_security_market_data_cache c g st).getter = some g ∧
      (set_security_market_data_cache c g st).setter = some st) := by
  refine ⟨?_, ?_, ?_⟩
  · intro w c id_ hg
    unfold security_id_to_symbol
    rw [hg]
  · intro w c id_ res log hrun hres
    cases hg : c.getter with
    | some g => simp
    | none =>
      exfalso
      apply hres
      unfold security_id_to_symbol at hrun
      rw [hg] at hrun
      have := congrArg Prod.fst hrun
      simp at this
      exact this.symm
  · intro c g st
    exact ⟨rfl, rfl⟩

/-- Witness for C8: on a client with no installed hooks, the lookup of
`"sec123"` sends nothing and yields the placeholder. -/
theorem security_id_to_symbol_requires_cache_witness :
    security_id_to_symbol c1Net {} "sec123" = (.ok "[sec123]", []) :=
  security_id_to_symbol_requires_cache.1 c1Net {} "sec123" rfl

/-- A custodian sub-account record (`custodianAccounts` entries), with
the fields read by `format_account_description`. -/
structure CustodianAccount where
  branch : String
  id : String
  status : String

/-- An account record, with the fields read by the formatters.  The
GraphQL provider always includes the selected fields, possibly with a
`null` value, so optional-valued fields are `Option`s ("key absent" is
not distinguished from "key null").  `number` and `description` are the
derived fields appended by `format_account_description`. -/
structure Account where
  id : String
  unifiedAccountType : String
  status : Option String := none
  accountOwnerConfiguration : Option String := none
  accountFeatures : List String := []
  custodianAccounts : List CustodianAccount := []
  nickname : Option String := none
  number : Option String := none
  description : Option String := none

/-- `_ACCOUNT_TYPE_DESCRIPTIONS` from `ws_api/formatters.py`. -/
def ACCOUNT_TYPE_DESCRIPTIONS : List (String × String) :=
  [("SELF_DIRECTED_RRSP", "RRSP: self-directed"),
   ("MANAGED_RRSP", "RRSP: managed"),
   ("SELF_DIRECTED_SPOUSAL_RRSP", "RRSP: self-directed spousal"),
   ("SELF_DIRECTED_TFSA", "TFSA: self-directed"),
   ("MANAGED_TFSA", "TFSA: managed"),
   ("SELF_DIRECTED_FHSA", "FHSA: self-directed"),
   ("MANAGED_FHSA", "FHSA: managed"),
   ("SELF_DIRECTED_NON_REGISTERED", "Non-registered: self-directed"),
   ("SELF_DIRECTED_JOINT_NON_REGISTERED",
     "Non-registered: self-directed - joint"),
   ("SELF_DIRECTED_NON_REGISTERED_MARGIN",
     "Non-registered: self-directed margin"),
   ("MANAGED_JOINT", "Non-registered: managed - joint"),
   ("SELF_DIRECTED_CRYPTO", "Crypto"),
   ("SELF_DIRECTED_RRIF", "RRIF: self-directed"),
   ("SELF_DIRECTED_SPOUSAL_RRIF", "RRIF: self-directed spousal"),
   ("CREDIT_CARD", "Credit card"),
   ("SELF_DIRECTED_LIRA", "LIRA: self-directed")]

/-- The guard of the custodian-account loop in
`format_account_description`:
`ca["branch"] in ("WS", "TR") and ca["status"] == "open"`. -/
def wsOpenCustodian (ca : CustodianAccount) : Bool :=
  (ca.branch = "WS" ∨ ca.branch = "TR") ∧ ca.status = "open"

/-- `format_account_description` from `ws_api/formatters.py`: `number`
starts as the account's own id and is overwritten by the id of every
qualifying custodian sub-account in sequence order; `description` is the
non-empty nickname if present, else the special-cased or table-derived
label. -/
def format_account_description (a : Account) : Account :=
  let number := a.custodianAccounts.foldl
    (fun n ca => if wsOpenCustodian ca then ca.id else n) a.id
  let a := { a with number := some number }
  if optStrTruthy a.nickname then { a with description := a.nickname }
  else
    let t := a.unifiedAccountType
    if t = "CASH" then
      let cashDesc := if a.accountOwnerConfiguration = some "MULTI_OWNER"
        then "Cash: joint" else "Cash"
      { a with description := some cashDesc }
    else if t = "MANAGED_NON_REGISTERED" then
      if a.accountFeatures.contains "PRIVATE_CREDIT" then
        { a with description := some "Non-registered: managed - private credit" }
      else if a.accountFeatures.contains "PRIVATE_EQUITY" then
        { a with description := some "Non-registered: managed - private equity" }
      else { a with description := some t }
    else
      { a with description := some ((ACCOUNT_TYPE_DESCRIPTIONS.lookup t).getD t) }

/-- Overwriting fold: the final value is the last matching element (or
the initial value when none matches). -/
theorem foldl_overwrite_eq_getLast (p : CustodianAccount → Bool) :
    ∀ (l : List CustodianAccount) (init : String),
      l.foldl (fun n ca => if p ca then ca.id else n) init =
        (((l.filter p).getLast?).map CustodianAccount.id).getD init := by
  intro l
  induction l with
  | nil => intro init; rfl
  | cons ca t ih =>
    intro init
    simp only [List.foldl_cons, List.filter_cons]
    by_cases hp : p ca
    · rw [if_pos hp, if_pos hp, ih]
      cases hemp : t.filter p with
      | nil => simp [hemp]
      | cons b bs =>
        rw [List.getLast?_cons_cons]
        cases hl : (b :: bs).getLast? with
        | none => simp [List.getLast?_eq_none_iff] at hl
        | some x => simp [hl]
    · rw [if_neg hp, if_neg hp, ih]

/-- C5: in `format_account_description`, `number` is seeded with the
account's own id and overwritten by each custodian sub-account whose
branch is `"WS"` or `"TR"` and whose status is `"open"`, so the last
such sub-account in `custodianAccounts` order wins; with no qualifying
sub-account — in particular with an empty `custodianAccounts` list —
`number` is the account's own id. -/
theorem format_account_description_number (a : Account) :
    (format_account_description a).number =
      some ((((a.custodianAccounts.filter wsOpenCustodian).getLast?).map
        CustodianAccount.id).getD a.id) ∧
    (format_account_description { a with custodianAccounts := [] }).number =
      some a.id := by
  constructor
  · have hnum : (format_account_description a).number =
        some (a.custodianAccounts.foldl
          (fun n ca => if wsOpenCustodian ca then ca.id else n) a.id) := by
      unfold format_account_description
      dsimp only
      split_ifs <;> rfl
    rw [hnum, foldl_overwrite_eq_getLast]
  · unfold format_account_description
    dsimp only
    split_ifs <;> rfl

/-- Python `str.lower()` (ASCII). -/
def pyLower (s : String) : String := String.mk (s.data.map Char.toLower)

/-- Python `str.upper()` (ASCII). -/
def pyUpper (s : String) : String := String.mk (s.data.map Char.toUpper)

/-- Python `str.replace(old, new)` for a one-character pattern (the
formatter only replaces `"_"` by `" "` or `"-"`). -/
def pyReplaceChar (s : String) (a b : Char) : String :=
  String.mk (s.data.map (fun c => if c = a then b else c))

/-- Rendering of Python `float(...)` applied to a decimal amount string.
The formatter's buy/sell and subdivision branches convert provider
decimal strings to floats for display and arithmetic; binary float
formatting is not modelled bit-exactly (no verified claim exercises
those branches), so amounts are carried as their source strings. -/
def pyFloatRepr (s : String) : String := s

/-- Display of `float(a) / float(b)` (see `pyFloatRepr`). -/
def pyFloatDiv (a b : String) : String := a ++ "/" ++ b

/-- Display of `float(a) + float(b)` (see `pyFloatRepr`). -/
def pyFloatAdd (a b : String) : String := a ++ "+" ++ b

/-- A required field value: `None` where Python would apply a string
method or `float()` raises a `TypeError`/`AttributeError`. -/
def reqStr (o : Option String) (msg : String) : Except Err String :=
  match o with
  | some s => pure s
  | none => throw (.pyError msg)

/-- An activity record, with the fields read by
`format_activity_description`.  GraphQL always includes the selected
fields (possibly `null`), so optional fields are `Option`s; decimal
amounts are carried as strings (see `pyFloatRepr`); `description` is the
derived field. -/
structure Activity where
  type : String
  subType : Option String := none
  opposingAccountId : Option String := none
  securityId : Option String := none
  assetQuantity : Option String := none
  amount : Option String := none
  canonicalId : Option String := none
  assetSymbol : Option String := none
  currency : Option String := none
  eTransferName : Option String := none
  eTransferEmail : Option String := none
  externalCanonicalId : Option String := none
  aftOriginatorName : Option String := none
  billPayPayeeNickname : Option String := none
  billPayCompanyName : Option String := none
  redactedExternalAccountNumber : Option String := none
  p2pHandle : Option String := none
  status : Option String := none
  spendMerchant : Option String := none
  rewardProgram : Option String := none
  institutionName : Option String := none
  entitlementType : Option String := none
  quantity : Option String := none
  description : String := ""

/-- The collaborator interface (`api_context`) consumed by
`format_activity_description`: the lookups the owning client exposes.
Arguments are passed exactly as the activity carries them (`None`
included).  `security_id_to_symbol` never raises (it absorbs lookup
failures internally); the other lookups may raise. -/
structure ApiCtx where
  getAccounts : Bool → Except Err (List Account)
  securityIdToSymbol : Option String → String
  getCorporateActionChildActivities : Option String → Except Err (List Activity)
  getSecurityMarketData : Option String → Except Err Json
  getEtfDetails : Option String → Except Err Json
  getTransferDetails : Option String → Except Err Json

/-- `_format_institutional_transfer` from `ws_api/formatters.py`:
returns `some` of the relabelled activity when the activity is an
institutional transfer intent it handles, `none` otherwise. -/
def format_institutional_transfer (act : Activity) (ctx : ApiCtx) :
    Except Err (Option Activity) := do
  if act.type ≠ "INSTITUTIONAL_TRANSFER_INTENT" then
    pure none
  else if act.subType = some "TRANSFER_IN" then do
    let details ← ctx.getTransferDetails act.externalCanonicalId
    let (verb, clientAccountType, institutionName, redactedAccountNumber) ←
      if details.isObj then do
        let tt ← pyIndex details "transferType"
        let tts ← match tt with
          | .str s => pure s
          | _ => throw (.pyError "AttributeError: no attribute replace")
        let cat ← pyIndex details "clientAccountType"
        let cats ← match cat with
          | .str s => pure s
          | _ => throw (.pyError "AttributeError: no attribute upper")
        let inst ← pyIndex details "institutionName"
        let red ← pyIndex details "redactedInstitutionAccountNumber"
        pure (pyCapitalize (pyReplaceChar tts '_' '-'), pyUpper cats,
          pyStrOfJson inst, pyStrOfJson red)
      else
        pure ("", "", "", "")
    pure (some { act with description :=
      "Institutional transfer: " ++ verb ++ " " ++ clientAccountType ++
      " account transfer from " ++ institutionName ++
      " ****" ++ redactedAccountNumber })
  else if act.subType = some "TRANSFER_OUT" then
    pure (some { act with description :=
      "Institutional transfer: transfer to " ++ pyShowOpt act.institutionName })
  else
    pure none

/-- `_format_corporate_action_subdivision` from `ws_api/formatters.py`:
returns `some` of the relabelled (and possibly currency-back-filled)
activity for a corporate-action subdivision, `none` otherwise.  A
non-string `fundamentals.currency` value is outside the typed embedding
(the `currency` field is an optional string) and is recorded as absent. -/
def format_corporate_action_subdivision (act : Activity) (ctx : ApiCtx) :
    Except Err (Option Activity) := do
  if ¬ (act.type = "CORPORATE_ACTION" ∧ act.subType = some "SUBDIVISION") then
    pure none
  else do
    let childActivities ← ctx.getCorporateActionChildActivities act.canonicalId
    let heldActivity :=
      childActivities.find? (fun a => a.entitlementType = some "HOLD")
    let receiveActivity :=
      childActivities.find? (fun a => a.entitlementType = some "RECEIVE")
    let act ←
      match heldActivity, receiveActivity with
      | some h, some r => do
        let heldShares ← reqStr h.quantity "TypeError: float() argument"
        let receivedShares ← reqStr r.quantity "TypeError: float() argument"
        let d := "Subdivision: " ++ pyFloatRepr heldShares ++ " -> " ++
          pyFloatAdd heldShares receivedShares ++ " shares of " ++
          pyShowOpt act.assetSymbol
        pure { act with description := d }
      | _, _ => do
        let receivedShares ← reqStr act.amount "TypeError: float() argument"
        let d := "Subdivision: Received " ++ pyFloatRepr receivedShares ++
          " new shares of " ++ pyShowOpt act.assetSymbol
        pure { act with description := d }
    if act.currency = none then do
      let security ← ctx.getSecurityMarketData act.securityId
      let currency :=
        if pyTruthy security ∧ security.isObj then
          match jsonGet security "fundamentals" with
          | some f =>
            if pyTruthy f ∧ f.isObj then
              match jsonGet f "currency" with
              | some (.str c) => some c
              | _ => none
            else none
          | none => none
        else none
      pure (some { act with currency := currency })
    else
      pure (some act)

/-- `_format_credit_card_description` from `ws_api/formatters.py`:
the computed label for credit-card activities, `None` otherwise. -/
def format_credit_card_description (act : Activity) : Option String :=
  if act.type = "CREDIT_CARD" ∧ act.subType = some "PURCHASE" then
    some ((if act.status = some "authorized" then "(Pending) " else "") ++
      "Credit card purchase: " ++ pyShowOpt act.spendMerchant)
  else if act.type = "CREDIT_CARD" ∧ act.subType = some "HOLD" then
    some ((if act.status = some "authorized" then "(Pending) " else "") ++
      "Credit card refund: " ++ pyShowOpt act.spendMerchant)
  else if act.type = "CREDIT_CARD" ∧ act.subType = some "REFUND" then
    some ("Credit card refund: " ++ pyShowOpt act.spendMerchant)
  else if (act.type = "CREDIT_CARD" ∧ act.subType = some "PAYMENT") ∨
      act.type = "CREDIT_CARD_PAYMENT" then
    some "Credit card payment"
  else
    none

/-- `format_activity_description` from `ws_api/formatters.py`: the
ordered first-match rule chain.  `description` is initialized to
`"{type}: {subType}"`, then the first matching rule's label replaces it;
lookup failures from the collaborator propagate. -/
def format_activity_description (act0 : Activity) (ctx : ApiCtx) :
    Except Err Activity := do
  let act := { act0 with
    description := act0.type ++ ": " ++ pyShowOpt act0.subType }
  if act.type = "INTERNAL_TRANSFER" ∨ act.type = "ASSET_MOVEMENT" then do
    let accounts ← ctx.getAccounts false
    let matching :=
      accounts.filter (fun acc => some acc.id = act.opposingAccountId)
    let accountDescription :=
      match matching.getLast? with
      | some target =>
        pyShowOpt target.description ++ " (" ++ pyShowOpt target.number ++ ")"
      | none => pyShowOpt act.opposingAccountId
    let direction := if act.subType = some "SOURCE" then "to" else "from"
    let d := "Money transfer: " ++ direction ++ " Wealthsimple " ++
      accountDescription
    pure { act with description := d }
  else if act.type = "DIY_BUY" ∨ act.type = "DIY_SELL" ∨
      act.type = "MANAGED_BUY" ∨ act.type = "MANAGED_SELL" then do
    let verb ←
      if pySubstr act.type "MANAGED" then pure "Managed transaction"
      else do
        let st ← reqStr act.subType "AttributeError: no attribute replace"
        pure (pyCapitalize (pyReplaceChar st '_' ' '))
    let action :=
      if act.type = "DIY_BUY" ∨ act.type = "MANAGED_BUY" then "buy" else "sell"
    let security := ctx.securityIdToSymbol act.securityId
    if act.assetQuantity = none then
      pure { act with description := verb ++ ": " ++ action ++ " TBD" }
    else do
      let q ← reqStr act.assetQuantity "TypeError: float() argument"
      let amt ← reqStr act.amount "TypeError: float() argument"
      let d := verb ++ ": " ++ action ++ " " ++ pyFloatRepr q ++ " x " ++
        security ++ " @ " ++ pyFloatDiv amt q
      pure { act with description := d }
  else do
    let sub ← format_corporate_action_subdivision act ctx
    match sub with
    | some act2 => pure act2
    | none =>
      if (act.type = "DEPOSIT" ∨ act.type = "WITHDRAWAL") ∧
          (act.subType = some "E_TRANSFER" ∨
           act.subType = some "E_TRANSFER_FUNDING") then
        let direction := if act.type = "DEPOSIT" then "from" else "to"
        let d := "Deposit: Interac e-transfer " ++ direction ++ " " ++
          pyShowOpt act.eTransferName ++ " " ++ pyShowOpt act.eTransferEmail
        pure { act with description := d }
      else if act.type = "DEPOSIT" ∧
          act.subType = some "PAYMENT_CARD_TRANSACTION" then
        let d := pyCapitalize (pyLower act.type) ++ ": Debit card funding"
        pure { act with description := d }
      else if act.subType = some "EFT" then do
        let details ← ctx.getEtfDetails act.externalCanonicalId
        let type1 := pyCapitalize (pyLower act.type)
        let direction := if act.type = "DEPOSIT" then "from" else "to"
        let prop := if act.type = "DEPOSIT" then "source" else "destination"
        let bankAccountInfo : Json :=
          if details.isObj then jsonGetD details prop (.obj []) else .obj []
        let bankAccount : Json :=
          if bankAccountInfo.isObj then
            jsonGetD bankAccountInfo "bankAccount" (.obj [])
          else .obj []
        if bankAccount.isObj then
          let nickname0 := jsonGetD bankAccount "nickname" .null
          let accountNumber := jsonGetD bankAccount "accountNumber" .null
          let nickname :=
            if pyTruthy nickname0 then nickname0
            else jsonGetD bankAccount "accountName" .null
          let d := type1 ++ ": EFT " ++ direction ++ " " ++
            pyStrOfJson nickname ++ " " ++ pyStrOfJson accountNumber
          pure { act with description := d }
        else
          throw (.pyError "AttributeError: no attribute get")
      else if act.type = "REFUND" ∧
          act.subType = some "TRANSFER_FEE_REFUND" then
        pure { act with description := "Reimbursement: account transfer fee" }
      else do
        let inst ← format_institutional_transfer act ctx
        match inst with
        | some act2 => pure act2
        | none =>
          let ccd := format_credit_card_description act
          if act.type = "INTEREST" then
            let d := if act.subType = some "FPL_INTEREST" then
                "Stock Lending Earnings"
              else "Interest"
            pure { act with description := d }
          else if act.type = "DIVIDEND" then
            let d := "Dividend: " ++ ctx.securityIdToSymbol act.securityId
            pure { act with description := d }
          else if act.type = "FUNDS_CONVERSION" then
            let d := "Funds converted: " ++ pyShowOpt act.currency ++
              " from " ++
              (if act.currency = some "CAD" then "USD" else "CAD")
            pure { act with description := d }
          else if act.type = "NON_RESIDENT_TAX" then
            pure { act with description := "Non-resident tax" }
          else if (act.type = "DEPOSIT" ∨ act.type = "WITHDRAWAL") ∧
              act.subType = some "AFT" then
            let type1 := if act.type = "DEPOSIT" then "Direct deposit"
              else "Pre-authorized debit"
            let direction := if type1 = "Direct deposit" then "from" else "to"
            let institution :=
              if optStrTruthy act.aftOriginatorName then
                pyShowOpt act.aftOriginatorName
              else pyShowOpt act.externalCanonicalId
            let d := type1 ++ ": " ++ direction ++ " " ++ institution
            pure { act with description := d }
          else if act.type = "WITHDRAWAL" ∧ act.subType = some "BILL_PAY" then
            let name :=
              if optStrTruthy act.billPayPayeeNickname then
                act.billPayPayeeNickname
              else act.billPayCompanyName
            let d := pyCapitalize act.type ++ ": Bill pay " ++
              pyShowOpt name ++ " " ++
              pyShowOpt act.redactedExternalAccountNumber
            pure { act with description := d }
          else if act.type = "P2P_PAYMENT" ∧
              (act.subType = some "SEND" ∨
               act.subType = some "SEND_RECEIVED") then
            let direction := if act.subType = some "SEND" then "sent to"
              else "received from"
            let d := "Cash " ++ direction ++ " " ++ pyShowOpt act.p2pHandle
            pure { act with description := d }
          else if act.type = "PROMOTION" ∧
              act.subType = some "INCENTIVE_BONUS" then
            let d := pyCapitalize act.type ++ ": " ++
              pyCapitalize (pyReplaceChar (act.subType.getD "") '_' ' ')
            pure { act with description := d }
          else if act.type = "REFERRAL" ∧ act.subType = none then
            pure { act with description := pyCapitalize act.type }
          else if optStrTruthy ccd then
            pure { act with description := ccd.getD "" }
          else if act.type = "REIMBURSEMENT" ∧
              act.subType = some "CASHBACK" then
            let program :=
              if act.rewardProgram = some "CREDIT_CARD_VISA_INFINITE_REWARDS"
              then "- Visa Infinite" else ""
            pure { act with description := pyRstrip ("Cash back " ++ program) }
          else if act.type = "SPEND" ∧ act.subType = some "PREPAID" then
            let d := "Purchase: " ++ pyShowOpt act.spendMerchant
            pure { act with description := d }
          else if act.type = "INTEREST_CHARGE" then
            let d := if act.subType = some "MARGIN_INTEREST" then
                "Interest Charge: margin interest"
              else "Interest Charge"
            pure { act with description := d }
          else if act.type = "FEE" ∧ act.subType = some "MANAGEMENT_FEE" then
            pure { act with description := "Management fee" }
          else
            pure act

/-- C6: classifying the activity `{type: "DIVIDEND", securityId: "sec1"}`
(no subtype) when the symbol lookup resolves `"sec1"` to `"TSX:AAA"`
sets `description` to `"Dividend: TSX:AAA"`, leaving every other field
unchanged. -/
theorem format_activity_description_dividend
    (act : Activity) (ctx : ApiCtx)
    (h1 : act.type = "DIVIDEND") (h2 : act.subType = none)
    (h3 : act.securityId = some "sec1")
    (h4 : ctx.securityIdToSymbol (some "sec1") = "TSX:AAA") :
    format_activity_description act ctx =
      .ok { act with description := "Dividend: TSX:AAA" } := by
  unfold format_activity_description
  simp [h1, h2, h3, h4, format_corporate_action_subdivision,
    format_institutional_transfer, Pure.pure, Except.pure, Bind.bind,
    Except.bind]

/-- A concrete collaborator whose symbol lookup resolves `"sec1"` to
`"TSX:AAA"` and whose other lookups return inert values. -/
def c6Ctx : ApiCtx where
  getAccounts := fun _ => .ok []
  securityIdToSymbol := fun o =>
    if o = some "sec1" then "TSX:AAA" else "[unknown]"
  getCorporateActionChildActivities := fun _ => .ok []
  getSecurityMarketData := fun _ => .ok .null
  getEtfDetails := fun _ => .ok .null
  getTransferDetails := fun _ => .ok .null

/-- Witness for C6 at the concrete dividend activity. -/
theorem format_activity_description_dividend_witness :
    format_activity_description
      { type := "DIVIDEND", securityId := some "sec1" } c6Ctx =
    .ok { type := "DIVIDEND", securityId := some "sec1",
          description := "Dividend: TSX:AAA" } :=
  format_activity_description_dividend
    { type := "DIVIDEND", securityId := some "sec1" } c6Ctx rfl rfl rfl rfl

/-- C10: for every e-transfer deposit or withdrawal (`subType`
`"E_TRANSFER"` or `"E_TRANSFER_FUNDING"`), the computed description
starts with the fixed prefix `"Deposit: Interac e-transfer"` regardless
of the activity type; only the direction word depends on the type
(`"from"` for `DEPOSIT`, `"to"` for `WITHDRAWAL`), so a withdrawal is
labeled `"Deposit: Interac e-transfer to ..."`. -/
theorem format_activity_description_etransfer
    (act : Activity) (ctx : ApiCtx)
    (ht : act.type = "DEPOSIT" ∨ act.type = "WITHDRAWAL")
    (hs : act.subType = some "E_TRANSFER" ∨
          act.subType = some "E_TRANSFER_FUNDING") :
    format_activity_description act ctx =
      .ok { act with description := ("Deposit: Interac e-transfer " ++
        (if act.type = "DEPOSIT" then "from" else "to") ++ " " ++
        pyShowOpt act.eTransferName ++ " " ++
        pyShowOpt act.eTransferEmail) } := by
  rcases ht with ht | ht <;> rcases hs with hs | hs <;>
    · unfold format_activity_description
      simp [ht, hs, format_corporate_action_subdivision,
        format_institutional_transfer, Pure.pure, Except.pure, Bind.bind,
        Except.bind]

/-- Witness for C10 at a concrete e-transfer withdrawal: the label
begins with `"Deposit: Interac e-transfer"` and the direction is
`"to"`. -/
theorem format_activity_description_etransfer_witness :
    format_activity_description
      { type := "WITHDRAWAL", subType := some "E_TRANSFER",
        eTransferName := some "Jane Roe",
        eTransferEmail := some "jane@example.com" } c6Ctx =
    .ok { type := "WITHDRAWAL", subType := some "E_TRANSFER",
          eTransferName := some "Jane Roe",
          eTransferEmail := some "jane@example.com",
          description :=
            "Deposit: Interac e-transfer to Jane Roe jane@example.com" } := by
  have h := format_activity_description_etransfer
    { type := "WITHDRAWAL", subType := some "E_TRANSFER",
      eTransferName := some "Jane Roe",
      eTransferEmail := some "jane@example.com" } c6Ctx
    (Or.inr rfl) (Or.inl rfl)
  rw [h]
  rfl
